import Mathlib

/-!
Verification of the chain-query client of `mesh-dash`
(`src/substrate/chain_functions.py`) against its specification.

The embedding models the pure arithmetic of the Epoch Calculator
(`get_epoch_data`, `get_subnet_epoch_data`, `get_overwatch_epoch_data`,
`in_overwatch_commit_period`), the retry executor built from
`tenacity.retry(wait=wait_fixed(..), stop=stop_after_attempt(4))`, the
distinguished `get_subnet_slot` path with forced reconnection, the
event-log scan of `get_reward_result_event`, and the formatted list
filters (`get_min_class_subnet_nodes_formatted`,
`get_subnet_nodes_info_formatted`).

Conventions of the embedding:
* Python integers are `ℕ` (block numbers, epoch lengths, multipliers and
  the fixed-point cutoff percent are chain counters, never negative);
  Python float division (`/`) is modelled as exact division in `ℚ`.
* `BLOCK_SECS` comes from `substrate/config.py`, which is not part of the
  sources; per the spec it is "a fixed per-block time duration constant"
  injected at construction, so every function that reads it takes it as
  the explicit argument `blockSecs`.
* Fallible Python code (exceptions) is modelled with explicit result
  types (`PyResult`, `Option`); the remote node is modelled by passing
  each query's outcome (or the fetched integers) as an argument.
-/

namespace MeshDash

/-- EpochData dataclass of `chain_functions.py` (lines 24-34).
`percent_complete` is a Python float, modelled as `ℚ`. -/
structure EpochData where
  block : ℕ
  epoch : ℕ
  block_per_epoch : ℕ
  seconds_per_epoch : ℕ
  percent_complete : ℚ
  blocks_elapsed : ℕ
  blocks_remaining : ℕ
  seconds_elapsed : ℕ
  seconds_remaining : ℕ
deriving Repr, DecidableEq

/-- EpochData.zero (lines 36-48): the "before start" state. -/
def EpochData.zero (blockSecs current_block epoch_length : ℕ) : EpochData :=
  { block := current_block
    epoch := 0
    block_per_epoch := epoch_length
    seconds_per_epoch := epoch_length * blockSecs
    percent_complete := 0
    blocks_elapsed := 0
    blocks_remaining := epoch_length
    seconds_elapsed := 0
    seconds_remaining := epoch_length * blockSecs }

/-- Hypertensor.get_epoch_data (lines 1053-1075): pure arithmetic on the
fetched pair `(current_block, epoch_length)`. -/
def get_epoch_data (blockSecs current_block epoch_length : ℕ) : EpochData :=
  let epoch := current_block / epoch_length
  let blocks_elapsed := current_block % epoch_length
  let percent_complete : ℚ := (blocks_elapsed : ℚ) / (epoch_length : ℚ)
  let blocks_remaining := epoch_length - blocks_elapsed
  let seconds_elapsed := blocks_elapsed * blockSecs
  let seconds_remaining := blocks_remaining * blockSecs
  { block := current_block
    epoch := epoch
    block_per_epoch := epoch_length
    seconds_per_epoch := epoch_length * blockSecs
    percent_complete := percent_complete
    blocks_elapsed := blocks_elapsed
    blocks_remaining := blocks_remaining
    seconds_elapsed := seconds_elapsed
    seconds_remaining := seconds_remaining }

/-- Hypertensor.get_subnet_epoch_data (lines 1077-1102): the subnet's
epoch clock starts at block `slot`. -/
def get_subnet_epoch_data (blockSecs current_block epoch_length slot : ℕ) :
    EpochData :=
  if current_block < slot then
    EpochData.zero blockSecs current_block epoch_length
  else
    let blocks_since_start := current_block - slot
    let epoch := blocks_since_start / epoch_length
    let blocks_elapsed := blocks_since_start % epoch_length
    let percent_complete : ℚ := (blocks_elapsed : ℚ) / (epoch_length : ℚ)
    let blocks_remaining := epoch_length - blocks_elapsed
    let seconds_elapsed := blocks_elapsed * blockSecs
    let seconds_remaining := blocks_remaining * blockSecs
    { block := current_block
      epoch := epoch
      block_per_epoch := epoch_length
      seconds_per_epoch := epoch_length * blockSecs
      percent_complete := percent_complete
      blocks_elapsed := blocks_elapsed
      blocks_remaining := blocks_remaining
      seconds_elapsed := seconds_elapsed
      seconds_remaining := seconds_remaining }

/-- Overwatch cutoff block of Hypertensor.get_overwatch_epoch_data
(lines 1109, 1116-1120): `overwatch_epoch_length = epoch_length * multiplier`,
`cutoff_percentage = cutoff_percent / 1e18`,
`epoch_cutoff_block = overwatch_epoch_length * epoch + overwatch_epoch_length * cutoff_percentage`
with `epoch = current_block // epoch_length`. Python float arithmetic is
modelled exactly in `ℚ`. -/
def epoch_cutoff_block (current_block epoch_length multiplier cutoff_percent : ℕ) : ℚ :=
  let epoch : ℕ := current_block / epoch_length
  let overwatch_epoch_length : ℕ := epoch_length * multiplier
  let cutoff_percentage : ℚ := (cutoff_percent : ℚ) / 10 ^ 18
  let block_increase_cutoff : ℚ := (overwatch_epoch_length : ℚ) * cutoff_percentage
  (overwatch_epoch_length : ℚ) * (epoch : ℚ) + block_increase_cutoff

/-- Lines 1122-1125 of Hypertensor.get_overwatch_epoch_data: zero once the
current block is past the cutoff, otherwise the raw block gap to the
cutoff (the code does not multiply the gap by BLOCK_SECS). -/
def seconds_remaining_until_reveal
    (current_block epoch_length multiplier cutoff_percent : ℕ) : ℚ :=
  if (current_block : ℚ) > epoch_cutoff_block current_block epoch_length multiplier cutoff_percent
  then 0
  else epoch_cutoff_block current_block epoch_length multiplier cutoff_percent - (current_block : ℚ)

/-- Hypertensor.in_overwatch_commit_period (lines 1140-1149): recomputes
the cutoff from the fields of `get_epoch_data` and tests
`epoch_data.block < epoch_cutoff_block`. -/
def in_overwatch_commit_period
    (blockSecs current_block epoch_length multiplier cutoff_percent : ℕ) : Bool :=
  let epoch_data := get_epoch_data blockSecs current_block epoch_length
  let overwatch_epoch_length : ℕ := epoch_data.block_per_epoch * multiplier
  let cutoff_percentage : ℚ := (cutoff_percent : ℚ) / 10 ^ 18
  let block_increase_cutoff : ℚ := (overwatch_epoch_length : ℚ) * cutoff_percentage
  let cutoff : ℚ := (overwatch_epoch_length : ℚ) * (epoch_data.epoch : ℚ) + block_increase_cutoff
  decide ((epoch_data.block : ℚ) < cutoff)

/-- OverwatchEpochData dataclass (lines 50-62). Python is dynamically
typed, so every field is carried as `ℚ`; the integer fields are integral
values of `ℚ`. -/
structure OverwatchEpochData where
  block : ℚ
  epoch : ℚ
  overwatch_epoch : ℚ
  block_per_epoch : ℚ
  seconds_per_epoch : ℚ
  percent_complete : ℚ
  blocks_elapsed : ℚ
  blocks_remaining : ℚ
  seconds_elapsed : ℚ
  seconds_remaining : ℚ
  seconds_remaining_until_reveal : ℚ
deriving Repr, DecidableEq

/-- Lookup of a keyword argument by name in a Python keyword-argument
list. -/
def kwLookup (kw : List (String × ℚ)) (name : String) : Option ℚ :=
  (kw.find? (fun entry => entry.1 == name)).map (fun entry => entry.2)

/-- Construction of the OverwatchEpochData dataclass from keyword
arguments: Python's generated `__init__` requires every field (none of
lines 50-62 has a default); a missing required field raises TypeError,
modelled as `none`. -/
def OverwatchEpochData.fromKwargs (kw : List (String × ℚ)) : Option OverwatchEpochData :=
  match kwLookup kw "block", kwLookup kw "epoch", kwLookup kw "overwatch_epoch",
      kwLookup kw "block_per_epoch", kwLookup kw "seconds_per_epoch",
      kwLookup kw "percent_complete", kwLookup kw "blocks_elapsed",
      kwLookup kw "blocks_remaining", kwLookup kw "seconds_elapsed",
      kwLookup kw "seconds_remaining", kwLookup kw "seconds_remaining_until_reveal" with
  | some b, some e, some oe, some bpe, some spe, some pc, some bel, some brem,
      some sel, some srem, some srr =>
    some ⟨b, e, oe, bpe, spe, pc, bel, brem, sel, srem, srr⟩
  | _, _, _, _, _, _, _, _, _, _, _ => none

/-- Hypertensor.get_overwatch_epoch_data (lines 1104-1138): the epoch
arithmetic of lines 1109-1125 followed by the constructor call of lines
1127-1138, which passes exactly these ten keyword arguments — the
required field `overwatch_epoch` is not among them. -/
def get_overwatch_epoch_data
    (blockSecs current_block epoch_length multiplier cutoff_percent : ℕ) :
    Option OverwatchEpochData :=
  let epoch := current_block / epoch_length
  let blocks_elapsed := current_block % epoch_length
  let percent_complete : ℚ := (blocks_elapsed : ℚ) / (epoch_length : ℚ)
  let blocks_remaining := epoch_length - blocks_elapsed
  let seconds_elapsed := blocks_elapsed * blockSecs
  let seconds_remaining := blocks_remaining * blockSecs
  OverwatchEpochData.fromKwargs [
    ("block", (current_block : ℚ)),
    ("epoch", (epoch : ℚ)),
    ("block_per_epoch", (epoch_length : ℚ)),
    ("seconds_per_epoch", ((epoch_length * blockSecs : ℕ) : ℚ)),
    ("percent_complete", percent_complete),
    ("blocks_elapsed", (blocks_elapsed : ℚ)),
    ("blocks_remaining", (blocks_remaining : ℚ)),
    ("seconds_elapsed", (seconds_elapsed : ℚ)),
    ("seconds_remaining", (seconds_remaining : ℚ)),
    ("seconds_remaining_until_reveal",
      seconds_remaining_until_reveal current_block epoch_length multiplier cutoff_percent)]

/-- Exception classes that appear in the retry paths of
`chain_functions.py`: SubstrateRequestException, ConnectionError,
AttributeError, WebSocketConnectionClosedException,
WebSocketProtocolException, and a stand-in for every other exception. -/
inductive PyExc where
  | substrateRequest
  | connectionError
  | attributeError
  | webSocketClosed
  | webSocketProtocol
  | other
deriving Repr, DecidableEq

/-- Outcome of one Python call: a normal return or a raised exception. -/
inductive PyResult (α : Type) where
  | ok (a : α)
  | exc (e : PyExc)
deriving Repr, DecidableEq

/-- Outcome of a tenacity-wrapped call: a normal return, a RetryError
wrapping the last failure (stop condition reached), or the original
exception re-raised because the retry condition rejected it. -/
inductive RetryOutcome (α : Type) where
  | ok (a : α)
  | retryError (last : PyExc)
  | raised (e : PyExc)
deriving Repr, DecidableEq

/-- Core of `tenacity.retry(wait=.., stop=stop_after_attempt(n))`: run
the body; on an exception accepted by the retry condition, retry while
extra attempts remain, else stop with RetryError wrapping the last
failure; an exception rejected by the retry condition is re-raised.
`extra` counts the attempts still allowed after the current one
(`stop_after_attempt 4` starts with `extra = 3`), `attempt` is the
0-based index of the current attempt; the result carries the total
number of attempts performed. The fixed wait delay has no observable
effect on the result and is not modelled. -/
def retryLoop (retryable : PyExc → Bool) (body : ℕ → PyResult α) :
    ℕ → ℕ → RetryOutcome α × ℕ
  | extra, attempt =>
    match body attempt with
    | .ok a => (.ok a, attempt + 1)
    | .exc e =>
      if retryable e then
        match extra with
        | 0 => (.retryError e, attempt + 1)
        | extra2 + 1 => retryLoop retryable body extra2 (attempt + 1)
      else (.raised e, attempt + 1)

/-- Default tenacity retry condition when no `retry=` argument is given
(as in `get_block_number`): every exception is retried. -/
def tenacityRetryAll : PyExc → Bool := fun _ => true

/-- Body of the `make_query` closure in Hypertensor.get_block_number
(lines 104-111): the try block's outcome on each attempt is `op`; a
SubstrateRequestException is caught, printed, and the function falls
through to an implicit `return None`; any other exception propagates to
tenacity. -/
def blockNumberBody (op : ℕ → PyResult α) (attempt : ℕ) : PyResult (Option α) :=
  match op attempt with
  | .ok a => .ok (some a)
  | .exc .substrateRequest => .ok none
  | .exc e => .exc e

/-- Hypertensor.get_block_number (lines 102-113): the inner body wrapped
by `@retry(wait=wait_fixed(BLOCK_SECS+1), stop=stop_after_attempt(4))`.
Returns the tenacity outcome together with the number of attempts
performed. -/
def get_block_number (op : ℕ → PyResult α) : RetryOutcome (Option α) × ℕ :=
  retryLoop tenacityRetryAll (blockNumberBody op) 3 0

/-- Operation that fails on the first `k` attempts and succeeds with `v`
from attempt `k` on. -/
def failsThenSucceeds (e : PyExc) (v : α) (k : ℕ) : ℕ → PyResult α :=
  fun attempt => if attempt < k then .exc e else .ok v

/-- Connection state of the SubstrateInterface as `get_subnet_slot`
manipulates it: whether the websocket is connected, whether runtime
metadata has been loaded, and how many force-reconnect cycles have
run. -/
structure ConnState where
  connected : Bool
  runtimeLoaded : Bool
  reconnects : ℕ
deriving Repr, DecidableEq

/-- Failure-recovery step in the except block of `get_subnet_slot`
(lines 591-599): `self.interface.close()` inside try/except-pass (close
errors are ignored — the `_closeRaised` flag has no effect), then
`connect_websocket()` and `init_runtime()`. -/
def forceReconnect (s : ConnState) (_closeRaised : Bool) : ConnState :=
  { connected := true, runtimeLoaded := true, reconnects := s.reconnects + 1 }

/-- Body of one `make_query` attempt in `get_subnet_slot`
(lines 575-599): ensure the websocket is connected (net effect:
`connected := true`, nothing else touched — the `init_runtime` line is
commented out in the source), run the query, and on any exception
force-reconnect before re-raising so tenacity can retry. -/
def subnetSlotBody (op : ℕ → PyResult α) (closeRaises : ℕ → Bool) (attempt : ℕ)
    (s : ConnState) : PyResult α × ConnState :=
  let s1 : ConnState := { s with connected := true }
  match op attempt with
  | .ok a => (.ok a, s1)
  | .exc e => (.exc e, forceReconnect s1 (closeRaises attempt))

/-- Stateful variant of `retryLoop`, threading the connection state
through the attempts, for the `get_subnet_slot` path. -/
def retryLoopSt (retryable : PyExc → Bool)
    (body : ℕ → ConnState → PyResult α × ConnState) :
    ℕ → ℕ → ConnState → RetryOutcome α × ConnState × ℕ
  | extra, attempt, s =>
    match body attempt s with
    | (.ok a, s1) => (.ok a, s1, attempt + 1)
    | (.exc e, s1) =>
      if retryable e then
        match extra with
        | 0 => (.retryError e, s1, attempt + 1)
        | extra2 + 1 => retryLoopSt retryable body extra2 (attempt + 1) s1
      else (.raised e, s1, attempt + 1)

/-- Retry condition of `get_subnet_slot` (line 573):
`retry_if_exception_type((SubstrateRequestException, ConnectionError,
AttributeError, WebSocketConnectionClosedException,
WebSocketProtocolException))`. -/
def subnetSlotRetryable : PyExc → Bool
  | .substrateRequest => true
  | .connectionError => true
  | .attributeError => true
  | .webSocketClosed => true
  | .webSocketProtocol => true
  | .other => false

/-- Hypertensor.get_subnet_slot (lines 565-604): the tenacity-wrapped
body with forced reconnection on failure, inside an outer
`try/except Exception: return None` (lines 601-604) that converts both
RetryError on exhaustion and a re-raised non-retryable exception into
`None`. Returns the value (or `None`), the final connection state, and
the number of attempts performed. -/
def get_subnet_slot (op : ℕ → PyResult α) (closeRaises : ℕ → Bool) (s0 : ConnState) :
    Option α × ConnState × ℕ :=
  match retryLoopSt subnetSlotRetryable (subnetSlotBody op closeRaises) 3 0 s0 with
  | (.ok a, s, n) => (some a, s, n)
  | (.retryError _, s, n) => (none, s, n)
  | (.raised _, s, n) => (none, s, n)

/-- SubnetNodeClass enum (lines 84-88). -/
inductive SubnetNodeClass where
  | Registered
  | Idle
  | Included
  | Validator
deriving Repr, DecidableEq

/-- Ordinals of the SubnetNodeClass enum members (lines 85-88). -/
def SubnetNodeClass.value : SubnetNodeClass → ℕ
  | .Registered => 1
  | .Idle => 2
  | .Included => 3
  | .Validator => 4

/-- subnet_node_class_to_enum (lines 94-95): `SubnetNodeClass[name]`
looks an enum member up by name; an unknown name raises KeyError,
modelled as `none`. -/
def subnet_node_class_to_enum (name : String) : Option SubnetNodeClass :=
  if name = "Registered" then some .Registered
  else if name = "Idle" then some .Idle
  else if name = "Included" then some .Included
  else if name = "Validator" then some .Validator
  else none

/-- Classification entry of a decoded subnet node, as the minimum-class
filter reads it: `node.classification['node_class']` (a class-name
string) and `node.classification['start_epoch']`.
Modelled from the spec: the decoded record comes from
`substrate/chain_data.py`, which is not among the sources; the spec
describes SubnetNodeInfo as a flat record with a classification enum
and scalars, and the filter reads exactly these two entries. -/
structure Classification where
  node_class : String
  start_epoch : ℕ
deriving Repr, DecidableEq

/-- Decoded subnet-node record, reduced to the identifier and the
classification entries the filter reads (see `Classification`). -/
structure SubnetNodeInfo where
  subnet_node_id : ℕ
  classification : Classification
deriving Repr, DecidableEq

/-- Keep-condition of the list comprehension at lines 1398-1401:
`subnet_node_class_to_enum(node.classification['node_class']).value >=
min_class.value and node.classification['start_epoch'] <= subnet_epoch`;
`none` when the class-name lookup raises KeyError. -/
def minClassKeep (min_class : SubnetNodeClass) (subnet_epoch : ℕ)
    (node : SubnetNodeInfo) : Option Bool :=
  match subnet_node_class_to_enum node.classification.node_class with
  | none => none
  | some cls =>
    some (decide (min_class.value ≤ cls.value) &&
      decide (node.classification.start_epoch ≤ subnet_epoch))

/-- Hypertensor.get_min_class_subnet_nodes_formatted (lines 1385-1403):
`fetched` is the outcome of the fetch+decode part of the try block; any
exception in the try block — transport exhaustion, absent result,
decode error, or a KeyError raised inside the comprehension by an
unknown class name — reaches the `except Exception` handler, which
returns the empty list. -/
def get_min_class_subnet_nodes_formatted (fetched : PyResult (List SubnetNodeInfo))
    (subnet_epoch : ℕ) (min_class : SubnetNodeClass) : List SubnetNodeInfo :=
  match fetched with
  | .exc _ => []
  | .ok nodes =>
    if nodes.all (fun node => (minClassKeep min_class subnet_epoch node).isSome) then
      nodes.filter (fun node => (minClassKeep min_class subnet_epoch node).getD false)
    else []

/-- Hypertensor.get_subnet_nodes_info_formatted (lines 1244-1259):
returns the decoded list, or `None` (not an empty list) when any
exception reaches its `except Exception` handler. -/
def get_subnet_nodes_info_formatted (fetched : PyResult (List SubnetNodeInfo)) :
    Option (List SubnetNodeInfo) :=
  match fetched with
  | .ok nodes => some nodes
  | .exc _ => none

/-- Event record as `get_reward_result_event` scans it: the module id,
the event id, and the attributes tuple
`(subnet_id, attestation_percentage)` of lines 1039-1040. -/
structure ChainEvent where
  module_id : String
  event_id : String
  attributes : ℕ × ℕ
deriving Repr, DecidableEq

/-- Loop of lines 1037-1043: linear scan of the block's events; an
event whose module id is "Network" and event id is "RewardResult" is
unpacked, and the loop breaks at the first such event whose subnet id
equals the target; every other event is skipped. -/
def rewardResultScan (target_subnet_id : ℕ) : List ChainEvent → Option (ℕ × ℕ)
  | [] => none
  | ev :: rest =>
    if ev.module_id = "Network" ∧ ev.event_id = "RewardResult" then
      if ev.attributes.1 = target_subnet_id then some ev.attributes
      else rewardResultScan target_subnet_id rest
    else rewardResultScan target_subnet_id rest

/-- Hypertensor.get_reward_result_event (lines 1015-1048): the target
block is `epoch_length * epoch` (line 1033), `eventsAt` maps a block
number to its event log (the block hash of line 1034 addresses that
block), and `data` stays `None` when no event matches — absence is not
an error. -/
def get_reward_result_event (target_subnet_id epoch epoch_length : ℕ)
    (eventsAt : ℕ → List ChainEvent) : Option (ℕ × ℕ) :=
  rewardResultScan target_subnet_id (eventsAt (epoch_length * epoch))

/-- Reading of the claim's words for comparison: the first event of the
block whose module+event id pair matches, with no condition on its
subnet id. -/
def firstModuleEventMatch (events : List ChainEvent) : Option (ℕ × ℕ) :=
  (events.find? (fun ev =>
      decide (ev.module_id = "Network") && decide (ev.event_id = "RewardResult"))).map
    (fun ev => ev.attributes)

/-- C1: for every pair `(current_block, epoch_length)` with
`epoch_length > 0`, the EpochData produced by `get_epoch_data` satisfies
`blocks_elapsed + blocks_remaining = epoch_length`,
`0 ≤ percent_complete < 1`, and
`percent_complete = blocks_elapsed / epoch_length`. -/
theorem get_epoch_data_invariants (blockSecs current_block epoch_length : ℕ)
    (hL : 0 < epoch_length) :
    (get_epoch_data blockSecs current_block epoch_length).blocks_elapsed +
        (get_epoch_data blockSecs current_block epoch_length).blocks_remaining =
        epoch_length ∧
    0 ≤ (get_epoch_data blockSecs current_block epoch_length).percent_complete ∧
    (get_epoch_data blockSecs current_block epoch_length).percent_complete < 1 ∧
    (get_epoch_data blockSecs current_block epoch_length).percent_complete =
      ((get_epoch_data blockSecs current_block epoch_length).blocks_elapsed : ℚ) /
        (epoch_length : ℚ) := by
  have hmod : current_block % epoch_length < epoch_length :=
    Nat.mod_lt _ hL
  refine ⟨?_, ?_, ?_, rfl⟩
  · simp only [get_epoch_data]
    omega
  · simp only [get_epoch_data]
    positivity
  · simp only [get_epoch_data]
    rw [div_lt_one (by exact_mod_cast hL)]
    exact_mod_cast hmod

/-- Witness for C1 at `blockSecs = 6`, `current_block = 175`,
`epoch_length = 100`. -/
theorem get_epoch_data_invariants_witness :
    0 < 100 ∧
    ((get_epoch_data 6 175 100).blocks_elapsed +
        (get_epoch_data 6 175 100).blocks_remaining = 100 ∧
      0 ≤ (get_epoch_data 6 175 100).percent_complete ∧
      (get_epoch_data 6 175 100).percent_complete < 1 ∧
      (get_epoch_data 6 175 100).percent_complete =
        ((get_epoch_data 6 175 100).blocks_elapsed : ℚ) / (100 : ℚ)) :=
  ⟨by decide, get_epoch_data_invariants 6 175 100 (by decide)⟩

/-- C2: with `epoch_length > 0`, if `current_block < slot` then
`get_subnet_epoch_data` returns the zero state (so `epoch = 0` and
`blocks_remaining = epoch_length`); if `current_block ≥ slot` it equals
`get_epoch_data` applied to `(current_block - slot, epoch_length)`
field-for-field, except `block`, which keeps the original
`current_block`. -/
theorem get_subnet_epoch_data_spec (blockSecs current_block epoch_length slot : ℕ)
    (hL : 0 < epoch_length) :
    (current_block < slot →
      get_subnet_epoch_data blockSecs current_block epoch_length slot =
          EpochData.zero blockSecs current_block epoch_length ∧
      (get_subnet_epoch_data blockSecs current_block epoch_length slot).epoch = 0 ∧
      (get_subnet_epoch_data blockSecs current_block epoch_length slot).blocks_remaining =
        epoch_length) ∧
    (slot ≤ current_block →
      get_subnet_epoch_data blockSecs current_block epoch_length slot =
        { get_epoch_data blockSecs (current_block - slot) epoch_length with
            block := current_block }) := by
  constructor
  · intro hlt
    refine ⟨?_, ?_, ?_⟩ <;> simp [get_subnet_epoch_data, hlt, EpochData.zero]
  · intro hge
    have hnlt : ¬ current_block < slot := not_lt.mpr hge
    simp [get_subnet_epoch_data, hnlt, get_epoch_data]

/-- C3 (counterexample): the claim fails on the code in three ways, each
at a concrete input. With `(epoch_length, multiplier, cutoff_percent) =
(1, 1, 0)` and `current_block = 5` the block equals the cutoff, the
guard `current_block > cutoff_block` is false, yet the value is `0`, not
strictly positive. With `(100, 10, 5·10^17)` and `current_block = 0` the
value is the raw block gap `500`, not the gap converted to seconds
(`500 · BLOCK_SECS`, e.g. `3000` at six-second blocks). With
`(10, 10, 5·10^17)` the value at block `10` exceeds the value at block
`9` although both blocks are at or before their cutoffs, so it is not
monotonically decreasing. -/
theorem seconds_remaining_until_reveal_claim_false :
    (¬ ((5 : ℚ) > epoch_cutoff_block 5 1 1 0) ∧
      seconds_remaining_until_reveal 5 1 1 0 = 0) ∧
    (seconds_remaining_until_reveal 0 100 10 (5 * 10 ^ 17) = 500 ∧
      seconds_remaining_until_reveal 0 100 10 (5 * 10 ^ 17) ≠
        (epoch_cutoff_block 0 100 10 (5 * 10 ^ 17) - (0 : ℚ)) * 6) ∧
    ((9 : ℚ) ≤ epoch_cutoff_block 9 10 10 (5 * 10 ^ 17) ∧
      (10 : ℚ) ≤ epoch_cutoff_block 10 10 10 (5 * 10 ^ 17) ∧
      seconds_remaining_until_reveal 9 10 10 (5 * 10 ^ 17) <
        seconds_remaining_until_reveal 10 10 10 (5 * 10 ^ 17)) := by
  norm_num [seconds_remaining_until_reveal, epoch_cutoff_block]

/-- C3 (amended): with `epoch_length > 0`,
`seconds_remaining_until_reveal` is `0` whenever the current block is at
or past the cutoff block; when the current block is strictly before the
cutoff it equals the block gap `cutoff - current_block` (in block units,
the code does not convert the gap to seconds) and is strictly positive;
and it is strictly decreasing in the current block among blocks sharing
the same base epoch that are at or before their cutoff. -/
theorem seconds_remaining_until_reveal_spec
    (current_block epoch_length multiplier cutoff_percent : ℕ)
    (hL : 0 < epoch_length) :
    (epoch_cutoff_block current_block epoch_length multiplier cutoff_percent ≤ (current_block : ℚ) →
      seconds_remaining_until_reveal current_block epoch_length multiplier cutoff_percent = 0) ∧
    ((current_block : ℚ) < epoch_cutoff_block current_block epoch_length multiplier cutoff_percent →
      seconds_remaining_until_reveal current_block epoch_length multiplier cutoff_percent =
        epoch_cutoff_block current_block epoch_length multiplier cutoff_percent - (current_block : ℚ) ∧
      0 < seconds_remaining_until_reveal current_block epoch_length multiplier cutoff_percent) ∧
    (∀ later_block : ℕ,
      current_block / epoch_length = later_block / epoch_length →
      current_block < later_block →
      (later_block : ℚ) ≤ epoch_cutoff_block later_block epoch_length multiplier cutoff_percent →
      seconds_remaining_until_reveal later_block epoch_length multiplier cutoff_percent <
        seconds_remaining_until_reveal current_block epoch_length multiplier cutoff_percent) := by
  refine ⟨?_, ?_, ?_⟩
  · intro h
    simp only [seconds_remaining_until_reveal]
    split_ifs with h2
    · rfl
    · have : (current_block : ℚ) = epoch_cutoff_block current_block epoch_length multiplier cutoff_percent :=
        le_antisymm (not_lt.mp h2) h
      linarith
  · intro h
    have h2 : ¬ ((current_block : ℚ) > epoch_cutoff_block current_block epoch_length multiplier cutoff_percent) :=
      not_lt.mpr h.le
    constructor
    · simp only [seconds_remaining_until_reveal, if_neg h2]
    · simp only [seconds_remaining_until_reveal, if_neg h2]
      linarith
  · intro later_block hdiv hlt hle
    have hcut : epoch_cutoff_block later_block epoch_length multiplier cutoff_percent =
        epoch_cutoff_block current_block epoch_length multiplier cutoff_percent := by
      simp only [epoch_cutoff_block, hdiv]
    have hcast : (current_block : ℚ) < (later_block : ℚ) := by exact_mod_cast hlt
    have hle2 : (current_block : ℚ) ≤
        epoch_cutoff_block current_block epoch_length multiplier cutoff_percent := by
      rw [← hcut]; linarith
    simp only [seconds_remaining_until_reveal, hcut]
    rw [if_neg (not_lt.mpr (hcut ▸ hle)), if_neg (not_lt.mpr hle2)]
    linarith

/-- Witness for the amended C3 at `(epoch_length, multiplier,
cutoff_percent) = (100, 10, 5·10^17)`: the cutoff for blocks 0 and 10 is
500, block 0 sees the full gap, and the gap at block 10 is strictly
smaller. -/
theorem seconds_remaining_until_reveal_spec_witness :
    0 < 100 ∧
    seconds_remaining_until_reveal 0 100 10 (5 * 10 ^ 17) =
      epoch_cutoff_block 0 100 10 (5 * 10 ^ 17) - (0 : ℚ) ∧
    seconds_remaining_until_reveal 10 100 10 (5 * 10 ^ 17) <
      seconds_remaining_until_reveal 0 100 10 (5 * 10 ^ 17) := by
  have thm := seconds_remaining_until_reveal_spec 0 100 10 (5 * 10 ^ 17) (by norm_num)
  refine ⟨by norm_num, (thm.2.1 ?_).1, thm.2.2 10 rfl (by norm_num) ?_⟩ <;>
    norm_num [epoch_cutoff_block]

/-- C9: over the same snapshot `(current_block, epoch_length,
multiplier, cutoff_percent)` with `epoch_length > 0`,
`in_overwatch_commit_period` is true exactly when the
`seconds_remaining_until_reveal` computed by `get_overwatch_epoch_data`
from that snapshot is strictly positive: both derive the identical
cutoff block. -/
theorem in_overwatch_commit_period_iff_reveal_gap_pos
    (blockSecs current_block epoch_length multiplier cutoff_percent : ℕ)
    (hL : 0 < epoch_length) :
    in_overwatch_commit_period blockSecs current_block epoch_length multiplier cutoff_percent = true ↔
    0 < seconds_remaining_until_reveal current_block epoch_length multiplier cutoff_percent := by
  simp only [in_overwatch_commit_period, seconds_remaining_until_reveal, epoch_cutoff_block,
    get_epoch_data, decide_eq_true_eq]
  split_ifs with h
  · constructor
    · intro h2; linarith
    · intro h2; exact absurd h2 (lt_irrefl 0)
  · rw [sub_pos]

/-- Witness for C9 at `(blockSecs, current_block, epoch_length,
multiplier, cutoff_percent) = (6, 0, 100, 10, 5·10^17)`: both sides hold
(block 0 is inside the commit window and the reveal gap is 500). -/
theorem in_overwatch_commit_period_iff_reveal_gap_pos_witness :
    0 < 100 ∧
    (in_overwatch_commit_period 6 0 100 10 (5 * 10 ^ 17) = true ↔
      0 < seconds_remaining_until_reveal 0 100 10 (5 * 10 ^ 17)) :=
  ⟨by decide, in_overwatch_commit_period_iff_reveal_gap_pos 6 0 100 10 (5 * 10 ^ 17) (by decide)⟩

/-- C6: the claim says `get_overwatch_epoch_data` completes and returns
a record containing `overwatch_epoch`; on the code it never does — the
constructor call at lines 1127-1138 omits the required field
`overwatch_epoch` of the dataclass at line 54, so construction fails
(Python: TypeError) for every input on which the fetches succeed. -/
theorem get_overwatch_epoch_data_always_raises
    (blockSecs current_block epoch_length multiplier cutoff_percent : ℕ)
    (hL : 0 < epoch_length) :
    get_overwatch_epoch_data blockSecs current_block epoch_length multiplier cutoff_percent =
      none := by
  rfl

/-- Witness for C6 at `(6, 175, 100, 10, 5·10^17)`. -/
theorem get_overwatch_epoch_data_always_raises_witness :
    0 < 100 ∧ get_overwatch_epoch_data 6 175 100 10 (5 * 10 ^ 17) = none :=
  ⟨by decide, get_overwatch_epoch_data_always_raises 6 175 100 10 (5 * 10 ^ 17) (by decide)⟩

/-- Witness for C2, both branches exercised: the zero branch at
`(blockSecs, current_block, epoch_length, slot) = (6, 30, 100, 50)` and
the offset branch at `(6, 175, 100, 50)`. -/
theorem get_subnet_epoch_data_spec_witness :
    (0 < 100 ∧ (30 < 50 →
      get_subnet_epoch_data 6 30 100 50 = EpochData.zero 6 30 100 ∧
      (get_subnet_epoch_data 6 30 100 50).epoch = 0 ∧
      (get_subnet_epoch_data 6 30 100 50).blocks_remaining = 100)) ∧
    (50 ≤ 175 →
      get_subnet_epoch_data 6 175 100 50 =
        { get_epoch_data 6 125 100 with block := 175 }) :=
  ⟨⟨by decide, (get_subnet_epoch_data_spec 6 30 100 50 (by decide)).1⟩,
    (get_subnet_epoch_data_spec 6 175 100 50 (by decide)).2⟩

/-- C4 (counterexample): an operation that fails twice with
SubstrateRequestException — a retryable transport failure per the code's
own classification in `get_subnet_slot` — and then succeeds. The claim
demands success with the value after exactly 3 attempts; the code's
inner handler catches the exception and returns None after a single
attempt, swallowing the failure. -/
theorem get_block_number_claim_false :
    get_block_number (failsThenSucceeds PyExc.substrateRequest (7 : ℕ) 2) =
      (RetryOutcome.ok none, 1) ∧
    (RetryOutcome.ok (none : Option ℕ), 1) ≠ (RetryOutcome.ok (some 7), 3) := by
  decide

/-- C4 (amended): for failures that escape the inner handler (any
exception other than SubstrateRequestException), the retry pattern of
`get_block_number` behaves as claimed: failing `k` times then
succeeding gives, for `k < 4`, success with the value after exactly
`k + 1` attempts, and for `k ≥ 4`, exactly 4 attempts and a RetryError
wrapping the last failure. A SubstrateRequestException, however, is
caught inside the attempt body and converted to a successful `None`
return after one attempt (see the counterexample). -/
theorem get_block_number_retry_spec {α : Type} (e : PyExc) (v : α) (k : ℕ)
    (he : e ≠ PyExc.substrateRequest) :
    (k < 4 →
      get_block_number (failsThenSucceeds e v k) = (RetryOutcome.ok (some v), k + 1)) ∧
    (4 ≤ k →
      get_block_number (failsThenSucceeds e v k) = (RetryOutcome.retryError e, 4)) := by
  constructor
  · intro hk
    interval_cases k <;> cases e <;>
      simp_all [get_block_number, retryLoop, blockNumberBody, failsThenSucceeds,
        tenacityRetryAll]
  · intro hk
    have h0 : 0 < k := by omega
    have h1 : 1 < k := by omega
    have h2 : 2 < k := by omega
    have h3 : 3 < k := by omega
    cases e <;>
      simp_all [get_block_number, retryLoop, blockNumberBody, failsThenSucceeds,
        tenacityRetryAll]

/-- Witness for the amended C4: a WebSocket-closed failure twice, then
success with value 5 — the call succeeds after 3 attempts. -/
theorem get_block_number_retry_spec_witness :
    PyExc.webSocketClosed ≠ PyExc.substrateRequest ∧ 2 < 4 ∧
    get_block_number (failsThenSucceeds PyExc.webSocketClosed (5 : ℕ) 2) =
      (RetryOutcome.ok (some 5), 3) :=
  ⟨by decide, by decide,
    (get_block_number_retry_spec PyExc.webSocketClosed 5 2 (by decide)).1 (by decide)⟩

/-- C5: for an operation failing `k` times with a failure in
`get_subnet_slot`'s retryable class and then succeeding, every failed
attempt performs one force-reconnect cycle (close ignoring errors,
reconnect, reload runtime metadata) before the retry, and on exhaustion
(`k ≥ 4`) the call returns the explicit absent value `none` to the
caller — it never propagates the error. -/
theorem get_subnet_slot_spec {α : Type} (e : PyExc) (v : α) (k : ℕ)
    (closeRaises : ℕ → Bool) (s0 : ConnState)
    (he : subnetSlotRetryable e = true) :
    (k < 4 →
      (get_subnet_slot (failsThenSucceeds e v k) closeRaises s0).1 = some v ∧
      (get_subnet_slot (failsThenSucceeds e v k) closeRaises s0).2.2 = k + 1 ∧
      (get_subnet_slot (failsThenSucceeds e v k) closeRaises s0).2.1.reconnects =
        s0.reconnects + k) ∧
    (4 ≤ k →
      (get_subnet_slot (failsThenSucceeds e v k) closeRaises s0).1 = none ∧
      (get_subnet_slot (failsThenSucceeds e v k) closeRaises s0).2.2 = 4 ∧
      (get_subnet_slot (failsThenSucceeds e v k) closeRaises s0).2.1.reconnects =
        s0.reconnects + 4) := by
  constructor
  · intro hk
    interval_cases k <;>
      simp [get_subnet_slot, retryLoopSt, subnetSlotBody, forceReconnect,
        failsThenSucceeds, he]
  · intro hk
    have h0 : 0 < k := by omega
    have h1 : 1 < k := by omega
    have h2 : 2 < k := by omega
    have h3 : 3 < k := by omega
    simp [get_subnet_slot, retryLoopSt, subnetSlotBody, forceReconnect,
      failsThenSucceeds, h0, h1, h2, h3, he]

/-- Witness for C5: five WebSocket-closed failures exhaust the retries —
the call returns `none` after 4 attempts and 4 reconnect cycles. -/
theorem get_subnet_slot_spec_witness :
    subnetSlotRetryable PyExc.webSocketClosed = true ∧ 4 ≤ 5 ∧
    ((get_subnet_slot (failsThenSucceeds PyExc.webSocketClosed (9 : ℕ) 5)
        (fun _ => false) ⟨true, true, 0⟩).1 = none ∧
      (get_subnet_slot (failsThenSucceeds PyExc.webSocketClosed (9 : ℕ) 5)
        (fun _ => false) ⟨true, true, 0⟩).2.2 = 4 ∧
      (get_subnet_slot (failsThenSucceeds PyExc.webSocketClosed (9 : ℕ) 5)
        (fun _ => false) ⟨true, true, 0⟩).2.1.reconnects = (⟨true, true, 0⟩ : ConnState).reconnects + 4) :=
  ⟨by decide, by decide,
    (get_subnet_slot_spec PyExc.webSocketClosed 9 5 (fun _ => false) ⟨true, true, 0⟩
      (by decide)).2 (by decide)⟩

/-- C7: for every decoded node list whose class names are among
Registered, Idle, Included and Validator, filtering with
`min_class = Included` and `subnet_epoch = E` returns exactly the nodes
whose class ordinal is at least Included's ordinal 3 and whose start
epoch is at most `E`. -/
theorem get_min_class_included_spec (nodes : List SubnetNodeInfo) (subnet_epoch : ℕ)
    (hvalid : ∀ node ∈ nodes, node.classification.node_class ∈
      (["Registered", "Idle", "Included", "Validator"] : List String)) :
    get_min_class_subnet_nodes_formatted (.ok nodes) subnet_epoch .Included =
      nodes.filter (fun node =>
        decide (3 ≤ ((subnet_node_class_to_enum node.classification.node_class).map
          SubnetNodeClass.value).getD 0) &&
        decide (node.classification.start_epoch ≤ subnet_epoch)) := by
  have hsome : ∀ node ∈ nodes,
      (minClassKeep .Included subnet_epoch node).isSome = true := by
    intro node hn
    have h := hvalid node hn
    simp only [List.mem_cons, List.not_mem_nil, or_false] at h
    rcases h with h | h | h | h <;> simp [minClassKeep, subnet_node_class_to_enum, h]
  have hall : nodes.all
      (fun node => (minClassKeep .Included subnet_epoch node).isSome) = true := by
    rw [List.all_eq_true]
    exact hsome
  simp only [get_min_class_subnet_nodes_formatted, hall, if_true]
  apply List.filter_congr
  intro node hn
  have h := hvalid node hn
  simp only [List.mem_cons, List.not_mem_nil, or_false] at h
  rcases h with h | h | h | h <;>
    simp [minClassKeep, subnet_node_class_to_enum, h, SubnetNodeClass.value]

/-- Witness for C7: three valid nodes, of which exactly the Validator
with start epoch 2 passes `min_class = Included, subnet_epoch = 10`
(the Included node started too late, the Idle node is below the
class). -/
theorem get_min_class_included_spec_witness :
    (∀ node ∈ ([⟨1, ⟨"Idle", 0⟩⟩, ⟨2, ⟨"Included", 30⟩⟩, ⟨3, ⟨"Validator", 2⟩⟩] :
        List SubnetNodeInfo), node.classification.node_class ∈
      (["Registered", "Idle", "Included", "Validator"] : List String)) ∧
    get_min_class_subnet_nodes_formatted
        (.ok [⟨1, ⟨"Idle", 0⟩⟩, ⟨2, ⟨"Included", 30⟩⟩, ⟨3, ⟨"Validator", 2⟩⟩]) 10 .Included =
      ([⟨1, ⟨"Idle", 0⟩⟩, ⟨2, ⟨"Included", 30⟩⟩, ⟨3, ⟨"Validator", 2⟩⟩] :
          List SubnetNodeInfo).filter (fun node =>
        decide (3 ≤ ((subnet_node_class_to_enum node.classification.node_class).map
          SubnetNodeClass.value).getD 0) &&
        decide (node.classification.start_epoch ≤ 10)) :=
  ⟨by decide,
    get_min_class_included_spec
      [⟨1, ⟨"Idle", 0⟩⟩, ⟨2, ⟨"Included", 30⟩⟩, ⟨3, ⟨"Validator", 2⟩⟩] 10 (by decide)⟩

/-- C10: on any failure `get_min_class_subnet_nodes_formatted` returns
the empty list (its catch-all handler never lets the error past its
boundary), whereas `get_subnet_nodes_info_formatted` returns `None` on
the same failures — which is not the empty list. -/
theorem get_min_class_formatted_absorbs_failures (e : PyExc) (subnet_epoch : ℕ)
    (min_class : SubnetNodeClass) :
    get_min_class_subnet_nodes_formatted (.exc e) subnet_epoch min_class = [] ∧
    get_subnet_nodes_info_formatted (.exc e) = none ∧
    get_subnet_nodes_info_formatted (.exc e) ≠ some ([] : List SubnetNodeInfo) :=
  ⟨rfl, rfl, by simp [get_subnet_nodes_info_formatted]⟩

/-- C8 (counterexample): a block whose event log holds two
Network/RewardResult events, for subnets 7 and 3. Queried for subnet 3,
the code returns the second event's attributes `(3, 200)`, not the
first module+event match `(7, 100)` that the claim describes: the scan
also requires the event's subnet id to equal the target. -/
theorem get_reward_result_event_claim_false :
    get_reward_result_event 3 1 100
        (fun b => if b = 100 then
          [⟨"Network", "RewardResult", (7, 100)⟩, ⟨"Network", "RewardResult", (3, 200)⟩]
        else []) = some (3, 200) ∧
    firstModuleEventMatch
        [⟨"Network", "RewardResult", (7, 100)⟩, ⟨"Network", "RewardResult", (3, 200)⟩] =
      some (7, 100) ∧
    some ((3 : ℕ), (200 : ℕ)) ≠ some ((7 : ℕ), (100 : ℕ)) := by
  refine ⟨?_, ?_, by decide⟩ <;>
    simp [get_reward_result_event, rewardResultScan, firstModuleEventMatch]

/-- C8 (amended): `get_reward_result_event` computes the target block
as `epoch_length * epoch` and returns the attributes of the first event
of that block whose module id is "Network", whose event id is
"RewardResult", and whose subnet id (first attribute) equals
`target_subnet_id`; it returns `None` when no event satisfies all
three, and absence is not an error. -/
theorem get_reward_result_event_spec (target_subnet_id epoch epoch_length : ℕ)
    (eventsAt : ℕ → List ChainEvent) :
    get_reward_result_event target_subnet_id epoch epoch_length eventsAt =
      ((eventsAt (epoch_length * epoch)).find? (fun ev =>
          decide (ev.module_id = "Network") && decide (ev.event_id = "RewardResult") &&
          decide (ev.attributes.1 = target_subnet_id))).map
        (fun ev => ev.attributes) := by
  unfold get_reward_result_event
  generalize eventsAt (epoch_length * epoch) = events
  induction events with
  | nil => rfl
  | cons ev rest ih =>
    by_cases hm : ev.module_id = "Network" ∧ ev.event_id = "RewardResult"
    · by_cases ht : ev.attributes.1 = target_subnet_id
      · have hpred : (decide (ev.module_id = "Network") &&
            decide (ev.event_id = "RewardResult") &&
            decide (ev.attributes.1 = target_subnet_id)) = true := by
          simp [hm.1, hm.2, ht]
        simp [rewardResultScan, if_pos hm, if_pos ht, List.find?, hpred]
      · have hpred : (decide (ev.module_id = "Network") &&
            decide (ev.event_id = "RewardResult") &&
            decide (ev.attributes.1 = target_subnet_id)) = false := by
          simp [ht]
        simp [rewardResultScan, if_pos hm, if_neg ht, List.find?, hpred, ih]
    · have hpred : (decide (ev.module_id = "Network") &&
          decide (ev.event_id = "RewardResult") &&
          decide (ev.attributes.1 = target_subnet_id)) = false := by
        rcases not_and_or.mp hm with h | h <;> simp [h]
      simp [rewardResultScan, if_neg hm, List.find?, hpred, ih]

end MeshDash
